import Mathlib

/-!
Verification of `pajbot/modules/default_chat_states.py`.

The module has two parts: a bounded duration normalizer
(`parse_follower_duration`, built on the external `pytimeparse` library) and
the `DefaultChatStatesModule` event handlers `on_stream_start` /
`on_stream_stop`, which dispatch up to five chat-mode API calls per lifecycle
event. The handlers are embedded as pure functions from a settings snapshot
and an API-outcome oracle to the list of observable effects (API calls, log
entries, user notices) plus the returned success flag.
-/

namespace Pajbot

/-- An exact decimal number with value `num / 10 ^ exp`.  Used to represent
the seconds value produced by the duration parser (Python returns an `int`
or a `float` parsed from a decimal literal, so every possible value is an
exact decimal). -/
structure Decimal where
  num : Int
  exp : Nat
deriving DecidableEq

/-- The rational value of a `Decimal`. -/
def Decimal.toRat (d : Decimal) : ℚ :=
  (d.num : ℚ) / (10 : ℚ) ^ d.exp

/-- Exact sum of two decimals (no normalization needed). -/
def Decimal.add (a b : Decimal) : Decimal :=
  ⟨a.num * (10 : Int) ^ b.exp + b.num * (10 : Int) ^ a.exp, a.exp + b.exp⟩

/-- Multiply a decimal by a natural-number unit multiplier. -/
def Decimal.scale (a : Decimal) (m : Nat) : Decimal :=
  ⟨a.num * (m : Int), a.exp⟩

/-- Value of a list of decimal digit characters. -/
def digitsToNat (ds : List Char) : Nat :=
  ds.foldl (fun n c => 10 * n + (c.toNat - 48)) 0

/-- Separator characters between duration components (whitespace, comma). -/
def isSepChar (c : Char) : Bool :=
  c == ' ' || c == ','

/-- Drop leading separators. -/
def skipSep (cs : List Char) : List Char :=
  cs.dropWhile isSepChar

/-- Parse a decimal number literal (`123` or `123.45`) from the front of the
input; returns its value and the remaining input. -/
def parseNumber (cs : List Char) : Option (Decimal × List Char) :=
  let p := cs.span Char.isDigit
  if p.1.isEmpty then none
  else
    match p.2 with
    | '.' :: rest =>
      let q := rest.span Char.isDigit
      some (⟨((digitsToNat p.1 * 10 ^ q.1.length + digitsToNat q.1 : Nat) : Int), q.1.length⟩, q.2)
    | rest => some (⟨((digitsToNat p.1 : Nat) : Int), 0⟩, rest)

/-- Modelled from the spec: the unit multipliers (in seconds) accepted by the
`pytimeparse` library, which is an external dependency whose source is not in
the repository.  The spec requires "at least seconds/minutes/hours/days/weeks
units in combined free-form phrasing"; a bare number is a seconds count, and
`pytimeparse` additionally accepts months (30 days) and years (365 days). -/
def unitSeconds (w : List Char) : Option Nat :=
  let ws := String.mk w
  if ws = "" then some 1
  else if ws = "s" ∨ ws = "sec" ∨ ws = "secs" ∨ ws = "second" ∨ ws = "seconds" then some 1
  else if ws = "m" ∨ ws = "min" ∨ ws = "mins" ∨ ws = "minute" ∨ ws = "minutes" then some 60
  else if ws = "h" ∨ ws = "hr" ∨ ws = "hrs" ∨ ws = "hour" ∨ ws = "hours" then some 3600
  else if ws = "d" ∨ ws = "day" ∨ ws = "days" then some 86400
  else if ws = "w" ∨ ws = "wk" ∨ ws = "wks" ∨ ws = "week" ∨ ws = "weeks" then some 604800
  else if ws = "mo" ∨ ws = "mon" ∨ ws = "month" ∨ ws = "months" then some 2592000
  else if ws = "y" ∨ ws = "yr" ∨ ws = "yrs" ∨ ws = "year" ∨ ws = "years" then some 31536000
  else none

/-- Modelled from the spec: parse a sequence of `<number> <unit>` components,
accumulating the total number of seconds.  Fuel-based recursion; each step
consumes at least one character, so fuel `length + 1` suffices. -/
def parseTerms : Nat → List Char → Decimal → Option Decimal
  | 0, _, _ => none
  | fuel + 1, cs, acc =>
    let cs1 := skipSep cs
    if cs1.isEmpty then some acc
    else
      match parseNumber cs1 with
      | none => none
      | some (d, rest) =>
        let rest1 := skipSep rest
        let w := rest1.span Char.isAlpha
        match unitSeconds w.1 with
        | none => none
        | some mult => parseTerms fuel w.2 (acc.add (d.scale mult))

/-- Modelled from the spec: the external `pytimeparse.parse` duration parser
(its source is not part of this repository).  It turns a free-form duration
phrase such as "30m", "1 week" or "5 days 12 hours" into a number of seconds
(an exact decimal), honouring an optional leading sign, or fails with `none`
(in particular on the empty string and on unparsable text). -/
def pytimeparse_parseDec (s : String) : Option Decimal :=
  match s.data with
  | [] => none
  | c :: cs =>
    let sg : Int × List Char :=
      if c = '-' then (-1, cs)
      else if c = '+' then (1, cs)
      else (1, c :: cs)
    if (skipSep sg.2).isEmpty then none
    else (parseTerms (sg.2.length + 1) sg.2 ⟨0, 0⟩).map (fun d => ⟨sg.1 * d.num, d.exp⟩)

/-- The parsed duration as a number of seconds (`Option` of a rational),
mirroring `pytimeparse.parse` returning `int | float | None`. -/
def pytimeparse_parse (s : String) : Option ℚ :=
  (pytimeparse_parseDec s).map Decimal.toRat

/-- Embeds `parse_follower_duration` (lines 21-36 of the source): parse an
input string and output it as a number of minutes, or `none` if the string
was unable to be parsed; the duration returned is no less than 0 and no more
than 3 months (129600 minutes).  `math.floor(duration_s / 60)` is the floor
`⌊duration_s / 60⌋`. -/
def parse_follower_duration (duration_str : String) : Option Int :=
  if duration_str = "" then none
  else
    match pytimeparse_parse duration_str with
    | none => none
    | some duration_s => some (min (max ⌊duration_s / 60⌋ 0) 129600)

/-- The log lines emitted by `parse_follower_duration`: exactly one error
line when the (nonempty) input fails to parse. -/
def parse_follower_duration_logs (duration_str : String) : List String :=
  if duration_str = "" then []
  else
    match pytimeparse_parse duration_str with
    | none => [("Failed to parse time from ") ++ duration_str]
    | some _ => []

/-- Fully computable restatement of `parse_follower_duration`, used to
evaluate it on concrete inputs. -/
def parse_follower_duration_compute (duration_str : String) : Option Int :=
  if duration_str = "" then none
  else
    match pytimeparse_parseDec duration_str with
    | none => none
    | some d => some (min (max (d.num.fdiv ((10 : Int) ^ d.exp * 60)) 0) 129600)

/-- The five mode categories handled by `DefaultChatStatesModule`. -/
inductive Category where
  | emoteonly
  | subonly
  | r9k
  | slow
  | followersonly
deriving DecidableEq

/-- The list of all five categories, in source order. -/
def Category.all : List Category :=
  [Category.emoteonly, Category.subonly, Category.r9k, Category.slow, Category.followersonly]

/-- A `requests.HTTPError` raised by a Twitch Helix API call: the response
status code, the exception's string form (`str(e)`), and `e.response.text`. -/
structure HTTPError where
  status : Nat
  errStr : String
  responseText : String
deriving DecidableEq

/-- Outcome of one API-client call: success, or an `HTTPError` raised. -/
inductive ApiOutcome where
  | success
  | failure (e : HTTPError)
deriving DecidableEq

/-- Whether an outcome is a failure. -/
def ApiOutcome.isFailure : ApiOutcome → Bool
  | ApiOutcome.success => false
  | ApiOutcome.failure _ => true

/-- Whether an outcome is a failure with HTTP status 401 (unauthorized). -/
def ApiOutcome.isUnauthorized : ApiOutcome → Bool
  | ApiOutcome.success => false
  | ApiOutcome.failure e => e.status == 401

/-- The extra parameters of a mode-update call: the three plain modes carry
none, slow mode carries the `slow_time` seconds, follower mode carries the
(possibly absent) parsed duration in minutes. -/
inductive CallParams where
  | plain
  | slowArgs (seconds : Int)
  | followerArgs (duration_m : Option Int)
deriving DecidableEq

/-- One observable effect of a handler run: a mode-update API call (with the
desired state flag and extra parameters), a `log.error` line, a `log.warning`
line, or a `bot.send_message` user notice.  API calls, error logs and notices
are tagged with the category of the source block that emitted them. -/
inductive Effect where
  | apiCall (c : Category) (state : Bool) (p : CallParams)
  | logError (c : Category) (msg : String)
  | logWarning (msg : String)
  | sendMessage (c : Category) (msg : String)
deriving DecidableEq

/-- The settings snapshot read by the module (`self.settings`): five trigger
phrases, the slow-mode seconds, and the followers-only duration text. -/
structure Settings where
  emoteonly : String
  subonly : String
  r9k : String
  slow_option : String
  slow_time : Int
  followersonly_option : String
  followersonly_time : String
deriving DecidableEq

def ONLINE_PHRASE : String := "Goes Online"

def OFFLINE_PHRASE : String := "Goes Offline"

def NEVER_PHRASE : String := "Never"

/-- The trigger setting of a given category in a snapshot. -/
def settingFor (st : Settings) : Category → String
  | Category.emoteonly => st.emoteonly
  | Category.subonly => st.subonly
  | Category.r9k => st.r9k
  | Category.slow => st.slow_option
  | Category.followersonly => st.followersonly_option

/-- One `if self.settings[key] == phrase: try: ... except HTTPError as e: ...`
block of the source.  If the category's trigger equals the event's phrase, the
API call is attempted (always with desired state `true`); on an `HTTPError`
with status 401 an error naming the mode is logged and a re-auth notice is
sent, on any other `HTTPError` only an error is logged.  Otherwise the
category is skipped with no effect. -/
def modeBlock (c : Category) (trigger phrase : String) (p : CallParams)
    (modeName genericName : String) (outcome : ApiOutcome) : List Effect :=
  if trigger = phrase then
    Effect.apiCall c true p ::
      (match outcome with
       | ApiOutcome.success => []
       | ApiOutcome.failure e =>
         if e.status = 401 then
           [Effect.logError c (("Failed to update ") ++ modeName ++ (", unauthorized: ") ++
              e.errStr ++ (" - ") ++ e.responseText),
            Effect.sendMessage c (("Error: The bot must be re-authed in order to update ") ++
              modeName ++ ("."))]
         else
           [Effect.logError c (("Failed to update ") ++ genericName ++ (": ") ++
              e.errStr ++ (" - ") ++ e.responseText)])
  else []

/-- The five sequential mode blocks shared (verbatim, up to the trigger
phrase) by `on_stream_start` and `on_stream_stop`: emote-only, subscriber
only, unique chat (R9K), slow (with `slow_time`), followers-only (with the
parsed `followersonly_time`), in source order.  The generic-failure log for
slow and follower mode uses the underscored names `slow_mode` /
`follower_mode`, exactly as in the source. -/
def eventEffects (phrase : String) (st : Settings) (outcomes : Category → ApiOutcome) :
    List Effect :=
  modeBlock Category.emoteonly st.emoteonly phrase CallParams.plain
      ("emote only mode") ("emote only mode") (outcomes Category.emoteonly)
    ++ modeBlock Category.subonly st.subonly phrase CallParams.plain
      ("subscriber only mode") ("subscriber only mode") (outcomes Category.subonly)
    ++ modeBlock Category.r9k st.r9k phrase CallParams.plain
      ("unique chat mode") ("unique chat mode") (outcomes Category.r9k)
    ++ modeBlock Category.slow st.slow_option phrase (CallParams.slowArgs st.slow_time)
      ("slow mode") ("slow_mode") (outcomes Category.slow)
    ++ modeBlock Category.followersonly st.followersonly_option phrase
      (CallParams.followerArgs (parse_follower_duration st.followersonly_time))
      ("follower mode") ("follower_mode") (outcomes Category.followersonly)

/-- Embeds `DefaultChatStatesModule.on_stream_start` (lines 113-197).  `bot`
is `none` when `self.bot is None`; `outcomes` is the environment's response
to each category's API call.  Returns the list of effects in program order
and the handler's boolean return value. -/
def on_stream_start (bot : Option Unit) (st : Settings) (outcomes : Category → ApiOutcome) :
    List Effect × Bool :=
  match bot with
  | none =>
    ([Effect.logWarning ("on_stream_start failed in DefaultChatStatesModule because bot is None")],
      true)
  | some _ => (eventEffects ONLINE_PHRASE st outcomes, true)

/-- Embeds `DefaultChatStatesModule.on_stream_stop` (lines 199-283): identical
to `on_stream_start` except that triggers are compared to the Offline phrase
(the desired state passed to every call is still `true`) and the
bot-is-None warning names `on_stream_stop`. -/
def on_stream_stop (bot : Option Unit) (st : Settings) (outcomes : Category → ApiOutcome) :
    List Effect × Bool :=
  match bot with
  | none =>
    ([Effect.logWarning ("on_stream_stop failed in DefaultChatStatesModule because bot is None")],
      true)
  | some _ => (eventEffects OFFLINE_PHRASE st outcomes, true)

/-- Number of API calls for category `c` in an effect trace. -/
def countApiCalls (effs : List Effect) (c : Category) : Nat :=
  effs.countP (fun eff => match eff with
    | Effect.apiCall c2 _ _ => c2 = c
    | _ => false)

/-- Total number of API calls (all categories) in an effect trace. -/
def countAllApiCalls (effs : List Effect) : Nat :=
  effs.countP (fun eff => match eff with
    | Effect.apiCall _ _ _ => true
    | _ => false)

/-- Number of user notices (`send_message` calls) for category `c`. -/
def countNotices (effs : List Effect) (c : Category) : Nat :=
  effs.countP (fun eff => match eff with
    | Effect.sendMessage c2 _ => c2 = c
    | _ => false)

/-- Number of `log.error` lines for category `c`. -/
def countErrorLogs (effs : List Effect) (c : Category) : Nat :=
  effs.countP (fun eff => match eff with
    | Effect.logError c2 _ => c2 = c
    | _ => false)

/-- Number of `log.warning` lines. -/
def countWarnings (effs : List Effect) : Nat :=
  effs.countP (fun eff => match eff with
    | Effect.logWarning _ => true
    | _ => false)

/-- The mode name appearing in the unauthorized error log and the re-auth
notice of each category's block. -/
def modeNameOf : Category → String
  | Category.emoteonly => ("emote only mode")
  | Category.subonly => ("subscriber only mode")
  | Category.r9k => ("unique chat mode")
  | Category.slow => ("slow mode")
  | Category.followersonly => ("follower mode")

/-- The re-auth user notice sent for a category on an unauthorized failure. -/
def noticeText (c : Category) : String :=
  ("Error: The bot must be re-authed in order to update ") ++ modeNameOf c ++ (".")

/-- A sample settings snapshot used to exercise the theorems on concrete
inputs: emote-only on Online, subscriber-only Never, R9K on Offline, slow on
Online (30 s), followers-only Never with empty duration text. -/
def sampleSettings : Settings :=
  ⟨ONLINE_PHRASE, NEVER_PHRASE, OFFLINE_PHRASE, ONLINE_PHRASE, 30, NEVER_PHRASE, ("")⟩

/-- A sample outcome oracle: emote-only fails with 401 (unauthorized), slow
fails with 500 (generic), the rest succeed. -/
def sampleOutcomes : Category → ApiOutcome
  | Category.emoteonly => ApiOutcome.failure ⟨401, ("401 Client Error"), ("Unauthorized")⟩
  | Category.slow => ApiOutcome.failure ⟨500, ("500 Server Error"), ("oops")⟩
  | _ => ApiOutcome.success

/-- A second sample oracle where every call succeeds. -/
def sampleOutcomes2 : Category → ApiOutcome :=
  fun _ => ApiOutcome.success

/-- Computable form of the clamped minutes value: flooring the rational
`(num / 10 ^ exp) / 60` is integer floor-division of `num` by `10 ^ exp * 60`. -/
theorem Decimal.floor_toRat_div_sixty (d : Decimal) :
    ⌊d.toRat / 60⌋ = d.num.fdiv ((10 : Int) ^ d.exp * 60) := by
  have h1 : d.toRat / 60 = (d.num : ℚ) / ((10 ^ d.exp * 60 : Nat) : ℚ) := by
    unfold Decimal.toRat
    push_cast
    ring
  rw [h1, Rat.floor_intCast_div_natCast, Int.fdiv_eq_ediv _ (by positivity)]
  push_cast
  ring_nf

theorem parse_follower_duration_eq (s : String) :
    parse_follower_duration s = parse_follower_duration_compute s := by
  unfold parse_follower_duration parse_follower_duration_compute pytimeparse_parse
  cases h : pytimeparse_parseDec s with
  | none => simp
  | some d => simp [Decimal.floor_toRat_div_sixty]

theorem countApiCalls_append (l1 l2 : List Effect) (c : Category) :
    countApiCalls (l1 ++ l2) c = countApiCalls l1 c + countApiCalls l2 c := by
  simp [countApiCalls, List.countP_append]

theorem countNotices_append (l1 l2 : List Effect) (c : Category) :
    countNotices (l1 ++ l2) c = countNotices l1 c + countNotices l2 c := by
  simp [countNotices, List.countP_append]

theorem countErrorLogs_append (l1 l2 : List Effect) (c : Category) :
    countErrorLogs (l1 ++ l2) c = countErrorLogs l1 c + countErrorLogs l2 c := by
  simp [countErrorLogs, List.countP_append]

theorem countApiCalls_modeBlock (c : Category) (trigger phrase : String) (p : CallParams)
    (n1 n2 : String) (o : ApiOutcome) (c2 : Category) :
    countApiCalls (modeBlock c trigger phrase p n1 n2 o) c2 =
      if c2 = c ∧ trigger = phrase then 1 else 0 := by
  unfold modeBlock countApiCalls
  by_cases ht : trigger = phrase <;> by_cases hc : c2 = c
  · subst hc
    cases o with
    | success => simp [ht]
    | failure e => by_cases h4 : e.status = 401 <;> simp [ht, h4]
  · cases o with
    | success => simp [ht, hc, Ne.symm hc]
    | failure e => by_cases h4 : e.status = 401 <;> simp [ht, hc, Ne.symm hc, h4]
  · simp [ht]
  · simp [ht, hc]

theorem countNotices_modeBlock (c : Category) (trigger phrase : String) (p : CallParams)
    (n1 n2 : String) (o : ApiOutcome) (c2 : Category) :
    countNotices (modeBlock c trigger phrase p n1 n2 o) c2 =
      if c2 = c ∧ trigger = phrase ∧ o.isUnauthorized = true then 1 else 0 := by
  unfold modeBlock countNotices ApiOutcome.isUnauthorized
  by_cases ht : trigger = phrase <;> by_cases hc : c2 = c
  · subst hc
    cases o with
    | success => simp [ht]
    | failure e => by_cases h4 : e.status = 401 <;> simp [ht, h4]
  · cases o with
    | success => simp [ht, hc, Ne.symm hc]
    | failure e => by_cases h4 : e.status = 401 <;> simp [ht, hc, Ne.symm hc, h4]
  · simp [ht]
  · simp [ht, hc]

theorem countErrorLogs_modeBlock (c : Category) (trigger phrase : String) (p : CallParams)
    (n1 n2 : String) (o : ApiOutcome) (c2 : Category) :
    countErrorLogs (modeBlock c trigger phrase p n1 n2 o) c2 =
      if c2 = c ∧ trigger = phrase ∧ o.isFailure = true then 1 else 0 := by
  unfold modeBlock countErrorLogs ApiOutcome.isFailure
  by_cases ht : trigger = phrase <;> by_cases hc : c2 = c
  · subst hc
    cases o with
    | success => simp [ht]
    | failure e => by_cases h4 : e.status = 401 <;> simp [ht, h4]
  · cases o with
    | success => simp [ht, hc, Ne.symm hc]
    | failure e => by_cases h4 : e.status = 401 <;> simp [ht, hc, Ne.symm hc, h4]
  · simp [ht]
  · simp [ht, hc]

theorem countApiCalls_eventEffects (phrase : String) (st : Settings)
    (o : Category → ApiOutcome) (c : Category) :
    countApiCalls (eventEffects phrase st o) c =
      if settingFor st c = phrase then 1 else 0 := by
  cases c <;>
    simp [eventEffects, countApiCalls_append, countApiCalls_modeBlock, settingFor]

theorem countNotices_eventEffects (phrase : String) (st : Settings)
    (o : Category → ApiOutcome) (c : Category) :
    countNotices (eventEffects phrase st o) c =
      if settingFor st c = phrase ∧ (o c).isUnauthorized = true then 1 else 0 := by
  cases c <;>
    simp [eventEffects, countNotices_append, countNotices_modeBlock, settingFor]

theorem countErrorLogs_eventEffects (phrase : String) (st : Settings)
    (o : Category → ApiOutcome) (c : Category) :
    countErrorLogs (eventEffects phrase st o) c =
      if settingFor st c = phrase ∧ (o c).isFailure = true then 1 else 0 := by
  cases c <;>
    simp [eventEffects, countErrorLogs_append, countErrorLogs_modeBlock, settingFor]

theorem state_true_of_mem_modeBlock {c2 : Category} {s : Bool} {p2 : CallParams}
    {c : Category} {trigger phrase n1 n2 : String} {p : CallParams} {o : ApiOutcome}
    (h : Effect.apiCall c2 s p2 ∈ modeBlock c trigger phrase p n1 n2 o) : s = true := by
  unfold modeBlock at h
  by_cases ht : trigger = phrase
  · rw [if_pos ht] at h
    cases o with
    | success =>
      simp only [List.mem_singleton, Effect.apiCall.injEq] at h
      exact h.2.1
    | failure e =>
      by_cases h4 : e.status = 401 <;> simp [h4] at h <;> exact h.2.1
  · rw [if_neg ht] at h
    exact absurd h (List.not_mem_nil _)

theorem state_true_of_mem_eventEffects {c2 : Category} {s : Bool} {p2 : CallParams}
    {phrase : String} {st : Settings} {o : Category → ApiOutcome}
    (h : Effect.apiCall c2 s p2 ∈ eventEffects phrase st o) : s = true := by
  unfold eventEffects at h
  simp only [List.mem_append] at h
  rcases h with ((((h | h) | h) | h) | h) <;> exact state_true_of_mem_modeBlock h

theorem notice_mem_modeBlock (c : Category) (trigger phrase : String) (p : CallParams)
    (n1 n2 : String) (e : HTTPError) (ht : trigger = phrase) (h4 : e.status = 401) :
    Effect.sendMessage c (("Error: The bot must be re-authed in order to update ") ++ n1 ++ (".")) ∈
      modeBlock c trigger phrase p n1 n2 (ApiOutcome.failure e) := by
  unfold modeBlock
  simp [ht, h4]

theorem notice_mem_eventEffects (phrase : String) (st : Settings) (o : Category → ApiOutcome)
    (c : Category) (e : HTTPError) (ht : settingFor st c = phrase) (h4 : e.status = 401)
    (ho : o c = ApiOutcome.failure e) :
    Effect.sendMessage c (noticeText c) ∈ eventEffects phrase st o := by
  unfold eventEffects noticeText
  cases c with
  | emoteonly =>
    simp only [List.mem_append]
    rw [ho]
    exact Or.inl (Or.inl (Or.inl (Or.inl (notice_mem_modeBlock _ _ _ _ _ _ _ ht h4))))
  | subonly =>
    simp only [List.mem_append]
    rw [ho]
    exact Or.inl (Or.inl (Or.inl (Or.inr (notice_mem_modeBlock _ _ _ _ _ _ _ ht h4))))
  | r9k =>
    simp only [List.mem_append]
    rw [ho]
    exact Or.inl (Or.inl (Or.inr (notice_mem_modeBlock _ _ _ _ _ _ _ ht h4)))
  | slow =>
    simp only [List.mem_append]
    rw [ho]
    exact Or.inl (Or.inr (notice_mem_modeBlock _ _ _ _ _ _ _ ht h4))
  | followersonly =>
    simp only [List.mem_append]
    rw [ho]
    exact Or.inr (notice_mem_modeBlock _ _ _ _ _ _ _ ht h4)

/-- C1: for every input string `s`, `parse_follower_duration s` returns
either `none` or an integer in the closed range `[0, 129600]`; the returned
value is never negative and never exceeds 129600, regardless of input. -/
theorem duration_range (s : String) (n : Int) (h : parse_follower_duration s = some n) :
    0 ≤ n ∧ n ≤ 129600 := by
  unfold parse_follower_duration at h
  by_cases hs : s = ""
  · rw [if_pos hs] at h
    exact absurd h (by simp)
  · rw [if_neg hs] at h
    cases hp : pytimeparse_parse s with
    | none =>
      rw [hp] at h
      exact absurd h (by simp)
    | some q =>
      rw [hp] at h
      simp only [Option.some.injEq] at h
      omega

theorem duration_range_witness :
    parse_follower_duration ("30m") = some 30 ∧ 0 ≤ (30 : Int) ∧ (30 : Int) ≤ 129600 := by
  have h : parse_follower_duration ("30m") = some 30 := by
    rw [parse_follower_duration_eq]
    decide
  exact ⟨h, duration_range ("30m") 30 h⟩

/-- C7: `parse_follower_duration ""` is `none`, and for every input string
the underlying duration parser fails to parse, `parse_follower_duration`
logs the failure and returns `none` (it never raises: it is a total
function into `Option`). -/
theorem parse_failure_absent :
    parse_follower_duration ("") = none ∧
      ∀ s : String, pytimeparse_parse s = none →
        parse_follower_duration s = none ∧
          (s ≠ ("") → parse_follower_duration_logs s = [("Failed to parse time from ") ++ s]) := by
  constructor
  · rfl
  · intro s hp
    constructor
    · unfold parse_follower_duration
      by_cases hs : s = ""
      · rw [if_pos hs]
      · rw [if_neg hs, hp]
    · intro hs
      unfold parse_follower_duration_logs
      rw [if_neg hs, hp]

theorem parse_failure_absent_witness :
    parse_follower_duration ("abc") = none ∧
      parse_follower_duration_logs ("abc") = [("Failed to parse time from ") ++ ("abc")] := by
  have hp : pytimeparse_parse ("abc") = none := by decide
  have h := parse_failure_absent.2 ("abc") hp
  exact ⟨h.1, h.2 (by decide)⟩

/-- C8: `parse_follower_duration` returns 129600 (the clamped maximum) on
"10 years", and 30, 10080, 7920 on "30m", "1 week", "5 days 12 hours". -/
theorem duration_concrete_examples :
    parse_follower_duration ("10 years") = some 129600 ∧
      parse_follower_duration ("30m") = some 30 ∧
      parse_follower_duration ("1 week") = some 10080 ∧
      parse_follower_duration ("5 days 12 hours") = some 7920 := by
  refine ⟨?_, ?_, ?_, ?_⟩ <;> rw [parse_follower_duration_eq] <;> decide

/-- C10: an input the parser reads as a negative number of seconds (e.g.
"-30m") yields `some 0`: the low clamp is applied after floor division, so a
parsable negative duration gives 0 rather than `none` or a negative value. -/
theorem negative_duration_clamped (s : String) (d : Decimal)
    (h : pytimeparse_parseDec s = some d) (hneg : d.toRat < 0) :
    parse_follower_duration s = some 0 := by
  have hs : s ≠ "" := by
    intro he
    rw [he] at h
    have hnone : pytimeparse_parseDec ("") = none := by decide
    rw [hnone] at h
    exact Option.noConfusion h
  unfold parse_follower_duration pytimeparse_parse
  rw [if_neg hs, h]
  have hq : d.toRat / 60 < 0 := div_neg_of_neg_of_pos hneg (by norm_num)
  have hf : ⌊d.toRat / 60⌋ < 0 := by
    by_contra hge
    push_neg at hge
    rw [Int.floor_nonneg] at hge
    linarith
  show some (min (max ⌊d.toRat / 60⌋ 0) 129600) = some 0
  congr 1
  omega

theorem negative_duration_clamped_witness :
    pytimeparse_parseDec ("-30m") = some ⟨-1800, 0⟩ ∧
      parse_follower_duration ("-30m") = some 0 := by
  have h : pytimeparse_parseDec ("-30m") = some ⟨-1800, 0⟩ := by decide
  have hneg : Decimal.toRat ⟨-1800, 0⟩ < 0 := by norm_num [Decimal.toRat]
  exact ⟨h, negative_duration_clamped ("-30m") ⟨-1800, 0⟩ h hneg⟩

/-- C2: on `StreamStarted` a category's API call is issued iff its trigger
equals the Online phrase; on `StreamStopped` iff it equals the Offline
phrase; a category whose trigger is the Never phrase produces no API call
under either event. -/
theorem trigger_matching (st : Settings) (o : Category → ApiOutcome) (c : Category) :
    countApiCalls (on_stream_start (some ()) st o).1 c =
        (if settingFor st c = ONLINE_PHRASE then 1 else 0) ∧
      countApiCalls (on_stream_stop (some ()) st o).1 c =
        (if settingFor st c = OFFLINE_PHRASE then 1 else 0) ∧
      (settingFor st c = NEVER_PHRASE →
        countApiCalls (on_stream_start (some ()) st o).1 c = 0 ∧
          countApiCalls (on_stream_stop (some ()) st o).1 c = 0) := by
  have h1 : countApiCalls (on_stream_start (some ()) st o).1 c =
      (if settingFor st c = ONLINE_PHRASE then 1 else 0) := by
    show countApiCalls (eventEffects ONLINE_PHRASE st o) c = _
    rw [countApiCalls_eventEffects]
  have h2 : countApiCalls (on_stream_stop (some ()) st o).1 c =
      (if settingFor st c = OFFLINE_PHRASE then 1 else 0) := by
    show countApiCalls (eventEffects OFFLINE_PHRASE st o) c = _
    rw [countApiCalls_eventEffects]
  refine ⟨h1, h2, ?_⟩
  intro hn
  rw [hn] at h1 h2
  rw [if_neg (by decide : ¬(NEVER_PHRASE = ONLINE_PHRASE))] at h1
  rw [if_neg (by decide : ¬(NEVER_PHRASE = OFFLINE_PHRASE))] at h2
  exact ⟨h1, h2⟩

theorem trigger_matching_witness :
    settingFor sampleSettings Category.subonly = NEVER_PHRASE ∧
      countApiCalls (on_stream_start (some ()) sampleSettings sampleOutcomes).1
        Category.subonly = 0 ∧
      countApiCalls (on_stream_stop (some ()) sampleSettings sampleOutcomes).1
        Category.subonly = 0 := by
  have hn : settingFor sampleSettings Category.subonly = NEVER_PHRASE := by decide
  have h := (trigger_matching sampleSettings sampleOutcomes Category.subonly).2.2 hn
  exact ⟨hn, h.1, h.2⟩

/-- C3: a failure of any category's API call never blocks, skips or alters
another category: the handlers return `true`, the number of API calls of
each category does not depend on the outcomes at all, and every triggered
category's call is attempted exactly once. -/
theorem dispatch_independence (st : Settings) (o o2 : Category → ApiOutcome) (c : Category) :
    (on_stream_start (some ()) st o).2 = true ∧
      (on_stream_stop (some ()) st o).2 = true ∧
      countApiCalls (on_stream_start (some ()) st o).1 c =
        countApiCalls (on_stream_start (some ()) st o2).1 c ∧
      countApiCalls (on_stream_stop (some ()) st o).1 c =
        countApiCalls (on_stream_stop (some ()) st o2).1 c ∧
      (settingFor st c = ONLINE_PHRASE →
        countApiCalls (on_stream_start (some ()) st o).1 c = 1) ∧
      (settingFor st c = OFFLINE_PHRASE →
        countApiCalls (on_stream_stop (some ()) st o).1 c = 1) := by
  refine ⟨rfl, rfl, ?_, ?_, ?_, ?_⟩
  · show countApiCalls (eventEffects ONLINE_PHRASE st o) c =
      countApiCalls (eventEffects ONLINE_PHRASE st o2) c
    rw [countApiCalls_eventEffects, countApiCalls_eventEffects]
  · show countApiCalls (eventEffects OFFLINE_PHRASE st o) c =
      countApiCalls (eventEffects OFFLINE_PHRASE st o2) c
    rw [countApiCalls_eventEffects, countApiCalls_eventEffects]
  · intro hc
    show countApiCalls (eventEffects ONLINE_PHRASE st o) c = 1
    rw [countApiCalls_eventEffects, if_pos hc]
  · intro hc
    show countApiCalls (eventEffects OFFLINE_PHRASE st o) c = 1
    rw [countApiCalls_eventEffects, if_pos hc]

theorem dispatch_independence_witness :
    settingFor sampleSettings Category.emoteonly = ONLINE_PHRASE ∧
      countApiCalls (on_stream_start (some ()) sampleSettings sampleOutcomes).1
        Category.emoteonly = 1 := by
  have hc : settingFor sampleSettings Category.emoteonly = ONLINE_PHRASE := by decide
  exact ⟨hc, (dispatch_independence sampleSettings sampleOutcomes sampleOutcomes2
    Category.emoteonly).2.2.2.2.1 hc⟩

/-- C4: no failure propagates out of the top-level handlers: for every input
they return the success flag `true` (they are total functions), and an API
failure of a triggered category is converted into exactly one error log
entry for that category. -/
theorem no_error_propagation (bot : Option Unit) (st : Settings) (o : Category → ApiOutcome)
    (c : Category) :
    (on_stream_start bot st o).2 = true ∧
      (on_stream_stop bot st o).2 = true ∧
      ((o c).isFailure = true → settingFor st c = ONLINE_PHRASE →
        countErrorLogs (on_stream_start (some ()) st o).1 c = 1) ∧
      ((o c).isFailure = true → settingFor st c = OFFLINE_PHRASE →
        countErrorLogs (on_stream_stop (some ()) st o).1 c = 1) := by
  refine ⟨?_, ?_, ?_, ?_⟩
  · cases bot <;> rfl
  · cases bot <;> rfl
  · intro hf hc
    show countErrorLogs (eventEffects ONLINE_PHRASE st o) c = 1
    rw [countErrorLogs_eventEffects, if_pos ⟨hc, hf⟩]
  · intro hf hc
    show countErrorLogs (eventEffects OFFLINE_PHRASE st o) c = 1
    rw [countErrorLogs_eventEffects, if_pos ⟨hc, hf⟩]

theorem no_error_propagation_witness :
    (sampleOutcomes Category.slow).isFailure = true ∧
      countErrorLogs (on_stream_start (some ()) sampleSettings sampleOutcomes).1
        Category.slow = 1 := by
  have hf : (sampleOutcomes Category.slow).isFailure = true := by decide
  have hc : settingFor sampleSettings Category.slow = ONLINE_PHRASE := by decide
  exact ⟨hf, (no_error_propagation (some ()) sampleSettings sampleOutcomes
    Category.slow).2.2.1 hf hc⟩

/-- C5: an unauthorized (401) API failure produces exactly one `send_message`
notice for that category (naming the specific mode); any other failure
produces zero notices and only an error log entry. -/
theorem notifier_discipline (st : Settings) (o : Category → ApiOutcome) (c : Category)
    (e : HTTPError) :
    countNotices (on_stream_start (some ()) st o).1 c =
        (if settingFor st c = ONLINE_PHRASE ∧ (o c).isUnauthorized = true then 1 else 0) ∧
      countNotices (on_stream_stop (some ()) st o).1 c =
        (if settingFor st c = OFFLINE_PHRASE ∧ (o c).isUnauthorized = true then 1 else 0) ∧
      countErrorLogs (on_stream_start (some ()) st o).1 c =
        (if settingFor st c = ONLINE_PHRASE ∧ (o c).isFailure = true then 1 else 0) ∧
      countErrorLogs (on_stream_stop (some ()) st o).1 c =
        (if settingFor st c = OFFLINE_PHRASE ∧ (o c).isFailure = true then 1 else 0) ∧
      (settingFor st c = ONLINE_PHRASE → o c = ApiOutcome.failure e → e.status = 401 →
        Effect.sendMessage c (noticeText c) ∈ (on_stream_start (some ()) st o).1) ∧
      (settingFor st c = OFFLINE_PHRASE → o c = ApiOutcome.failure e → e.status = 401 →
        Effect.sendMessage c (noticeText c) ∈ (on_stream_stop (some ()) st o).1) := by
  refine ⟨?_, ?_, ?_, ?_, ?_, ?_⟩
  · show countNotices (eventEffects ONLINE_PHRASE st o) c = _
    rw [countNotices_eventEffects]
  · show countNotices (eventEffects OFFLINE_PHRASE st o) c = _
    rw [countNotices_eventEffects]
  · show countErrorLogs (eventEffects ONLINE_PHRASE st o) c = _
    rw [countErrorLogs_eventEffects]
  · show countErrorLogs (eventEffects OFFLINE_PHRASE st o) c = _
    rw [countErrorLogs_eventEffects]
  · intro hc ho h4
    exact notice_mem_eventEffects ONLINE_PHRASE st o c e hc h4 ho
  · intro hc ho h4
    exact notice_mem_eventEffects OFFLINE_PHRASE st o c e hc h4 ho

theorem notifier_discipline_witness :
    settingFor sampleSettings Category.emoteonly = ONLINE_PHRASE ∧
      sampleOutcomes Category.emoteonly =
        ApiOutcome.failure ⟨401, ("401 Client Error"), ("Unauthorized")⟩ ∧
      Effect.sendMessage Category.emoteonly (noticeText Category.emoteonly) ∈
        (on_stream_start (some ()) sampleSettings sampleOutcomes).1 := by
  have hc : settingFor sampleSettings Category.emoteonly = ONLINE_PHRASE := by decide
  have ho : sampleOutcomes Category.emoteonly =
      ApiOutcome.failure ⟨401, ("401 Client Error"), ("Unauthorized")⟩ := rfl
  exact ⟨hc, ho, (notifier_discipline sampleSettings sampleOutcomes Category.emoteonly
    ⟨401, ("401 Client Error"), ("Unauthorized")⟩).2.2.2.2.1 hc ho rfl⟩

/-- C6: when `bot` is `None` at event time, each handler emits exactly one
warning, makes zero API calls, and still returns the success flag `true`. -/
theorem missing_bot_context (st : Settings) (o : Category → ApiOutcome) :
    on_stream_start none st o =
        ([Effect.logWarning
            ("on_stream_start failed in DefaultChatStatesModule because bot is None")], true) ∧
      on_stream_stop none st o =
        ([Effect.logWarning
            ("on_stream_stop failed in DefaultChatStatesModule because bot is None")], true) ∧
      countAllApiCalls (on_stream_start none st o).1 = 0 ∧
      countAllApiCalls (on_stream_stop none st o).1 = 0 ∧
      countWarnings (on_stream_start none st o).1 = 1 ∧
      countWarnings (on_stream_stop none st o).1 = 1 :=
  ⟨rfl, rfl, rfl, rfl, rfl, rfl⟩

/-- C9: every mode-update API call issued by either handler passes desired
state `true`: no reachable path of `on_stream_start` or `on_stream_stop`
ever disables a chat mode. -/
theorem always_enable_state (bot : Option Unit) (st : Settings) (o : Category → ApiOutcome)
    (c : Category) (s : Bool) (p : CallParams) :
    (Effect.apiCall c s p ∈ (on_stream_start bot st o).1 → s = true) ∧
      (Effect.apiCall c s p ∈ (on_stream_stop bot st o).1 → s = true) := by
  constructor
  · intro h
    cases bot with
    | none => simp [on_stream_start] at h
    | some u => exact state_true_of_mem_eventEffects h
  · intro h
    cases bot with
    | none => simp [on_stream_stop] at h
    | some u => exact state_true_of_mem_eventEffects h

theorem always_enable_state_witness :
    Effect.apiCall Category.emoteonly true CallParams.plain ∈
        (on_stream_start (some ()) sampleSettings sampleOutcomes).1 ∧ (true : Bool) = true := by
  have h : Effect.apiCall Category.emoteonly true CallParams.plain ∈
      (on_stream_start (some ()) sampleSettings sampleOutcomes).1 := by decide
  exact ⟨h, (always_enable_state (some ()) sampleSettings sampleOutcomes Category.emoteonly true
    CallParams.plain).1 h⟩

end Pajbot
